import Mathlib

/-!
Verification development for the praxis-assistant frontend.

The development shallowly embeds the JavaScript sources of the repository:

* the API client (src/lib/api.js): URL building, header assembly,
  JSON bodies, response handling with 401 logout;
* the dual-API chat widget (the ChatWidget variant that talks to the
  per-thread chats API and falls back to the legacy endpoints):
  initializeChat and send;
* the legacy chat widget (src/frontend/src/components/ChatWidget.jsx):
  the history fetch effect, the send handler and parseJwt / userId;
* the token hook useJwtToken of src/frontend/src/App.jsx.

JavaScript values that matter to the claims are modelled explicitly:
JSON values by an inductive type, absent values by Option, thrown
exceptions by Except, browser storage and location by small state
records. Platform built-ins used by the sources (atob, UTF-8 decoding
via decodeURIComponent, JSON.parse) are given executable models.
-/

/-- Model of a JavaScript JSON value. Numbers keep their literal text,
which is enough to decide JavaScript truthiness. -/
inductive Json where
  | null
  | bool (b : Bool)
  | num (raw : String)
  | str (s : String)
  | arr (elems : List Json)
  | obj (fields : List (String × Json))

/-- Last binding of a key in an association list. Later entries win,
matching the JavaScript object-spread and duplicate-key semantics. -/
def lookupLast (l : List (String × String)) (k : String) : Option String :=
  match l with
  | [] => none
  | (k', v) :: rest =>
    match lookupLast rest k with
    | some r => some r
    | none => if k' = k then some v else none

/-- Field access on a JSON value: an object yields its field (last
duplicate wins, as in JSON.parse), anything else yields undefined. -/
def jsField (j : Json) (k : String) : Option Json :=
  match j with
  | .obj fields =>
    (fields.foldl (fun acc kv => if kv.1 = k then some kv.2 else acc) none)
  | _ => none

/-- Truthiness of a JSON number literal: false exactly when every
mantissa digit is zero. -/
def numTruthy (raw : String) : Bool :=
  (raw.data.takeWhile (fun c => (c != 'e') && (c != 'E'))).any
    (fun c => c.isDigit && (c != '0'))

/-- JavaScript truthiness of a JSON value. -/
def jsTruthy : Json → Bool
  | .null => false
  | .bool b => b
  | .num raw => numTruthy raw
  | .str s => s != ""
  | .arr _ => true
  | .obj _ => true

/-- Rough JavaScript stringification of a JSON value, used only to build
error messages in the API client model. -/
def jsStringOf : Json → String
  | .null => "null"
  | .bool b => if b then "true" else "false"
  | .num raw => raw
  | .str s => s
  | .arr _ => ""
  | .obj _ => "[object Object]"

/-- Whether the first list begins with the second one. -/
def beginsWithChars : List Char → List Char → Bool
  | _, [] => true
  | [], _ :: _ => false
  | c :: cs, p :: ps => p == c && beginsWithChars cs ps

/-- Whether a string begins with a pattern, the model of the JavaScript
startsWith method. -/
def strBegins (s pat : String) : Bool :=
  beginsWithChars s.data pat.data

/-- JavaScript whitespace characters relevant to the trim method. -/
def jsWs (c : Char) : Bool :=
  c == ' ' || c == '\t' || c == '\n' || c == '\r'
    || c == Char.ofNat 11 || c == Char.ofNat 12

/-- Model of the JavaScript trim method: whitespace removed from both
ends. -/
def jsTrim (s : String) : String :=
  String.mk (((s.data.dropWhile jsWs).reverse.dropWhile jsWs).reverse)

/-- Split of a character list at every occurrence of a separator, the
model of the JavaScript split method with a one-character separator. -/
def splitAtChar (sep : Char) : List Char → List (List Char)
  | [] => [[]]
  | c :: rest =>
    let r := splitAtChar sep rest
    if c == sep then [] :: r
    else
      match r with
      | h :: t => (c :: h) :: t
      | [] => [[c]]

/-- Removal of every leading slash of a string, the model of
path.replace with the anchored slash-run pattern. -/
def dropLeadingSlashes (s : String) : String :=
  String.mk (s.data.dropWhile (fun c => c == '/'))

/-- Removal of every trailing slash of a string, the model of
raw.replace with the trailing slash-run pattern. -/
def stripTrailingSlashes (s : String) : String :=
  String.mk ((s.data.reverse.dropWhile (fun c => c == '/')).reverse)

/-- Whether a string starts with a slash character. -/
def startsSlash (s : String) : Bool :=
  match s.data with
  | c :: _ => c == '/'
  | [] => false

/-- Whether a string ends with a slash character. -/
def endsInSlash (s : String) : Bool :=
  s.data.getLast? == some '/'

/-- Backend base URL from the build environment, the model of api.js:
the VITE_BACKEND_URL variable defaulted to "/api", trailing slashes
stripped. -/
def BACKEND_URL_of (envVar : Option String) : String :=
  stripTrailingSlashes (envVar.getD "/api")

/-- Auth base URL from the build environment, the model of api.js:
the VITE_AUTH_URL variable defaulted to "/auth", trailing slashes
stripped. -/
def AUTH_URL_of (envVar : Option String) : String :=
  stripTrailingSlashes (envVar.getD "/auth")

/-- URL building of the request function of api.js: absolute paths that
start with http are used unchanged, paths that start with /auth are
joined to the auth base, every other path is joined to the backend base,
with the leading slashes of the path stripped before joining. -/
def buildUrl (backendUrl authUrl : String) (path : String) : String :=
  if strBegins path "http" then path
  else
    (if strBegins path "/auth" then authUrl else backendUrl)
      ++ "/" ++ dropLeadingSlashes path

/-- An outgoing HTTP request, as assembled by the frontend. The body
keeps the JSON value that is stringified on the wire. -/
structure HttpRequest where
  url : String
  method : String
  headers : List (String × String)
  body : Option Json

/-- Stored token as the request function reads it: getToken returns the
storage entry or the empty string. -/
def getTokenOf (storage : Option String) : String :=
  storage.getD ""

/-- Request assembly of the request function of api.js: the URL is built
from the configured bases, a Content-Type header is added when a JSON
body is present, an Authorization bearer header is added when the stored
token is non-empty, and caller headers are spread last, so they override
the base headers. -/
def buildRequest (backendUrl authUrl storedToken path method : String)
    (extraHeaders : List (String × String)) (body : Option Json) :
    HttpRequest :=
  { url := buildUrl backendUrl authUrl path
    method := method
    headers :=
      (if body.isSome then [("Content-Type", "application/json")] else [])
        ++ (if storedToken != "" then
              [("Authorization", "Bearer " ++ storedToken)]
            else [])
        ++ extraHeaders
    body := body }

/-- A received HTTP response, as the request function of api.js sees it:
status, content type, the parsed JSON body (for JSON content) and the
text body. -/
structure ApiRes where
  status : Nat
  contentType : String
  jsonBody : Json
  textBody : String

/-- Success outcome of the request function: the raw response, a JSON
value, or a text body. -/
inductive ApiOutcome where
  | raw (r : ApiRes)
  | js (j : Json)
  | txt (t : String)

/-- The ok flag of a fetch response: status in the 2xx range. -/
def resOk (status : Nat) : Bool :=
  (200 ≤ status) && (status < 300)

/-- Whether a character list contains a pattern as a contiguous run. -/
def containsChars (pat : List Char) : List Char → Bool
  | [] => beginsWithChars [] pat
  | c :: cs => beginsWithChars (c :: cs) pat || containsChars pat cs

/-- Whether a content type mentions application/json, the model of the
includes check of api.js. -/
def ctHasJson (ct : String) : Bool :=
  containsChars "application/json".data ct.data

/-- Error message taken from a JSON error body: the error field, else
the message field, else an HTTP status message — each step following
JavaScript truthiness. -/
def errFromJson (j : Json) (status : Nat) : String :=
  let fallback := "HTTP " ++ toString status
  if jsTruthy j then
    match jsField j "error" with
    | some e =>
      if jsTruthy e then jsStringOf e
      else
        match jsField j "message" with
        | some m => if jsTruthy m then jsStringOf m else fallback
        | none => fallback
    | none =>
      match jsField j "message" with
      | some m => if jsTruthy m then jsStringOf m else fallback
      | none => fallback
  else fallback

/-- Response handling of the request function of api.js. The result is
the new token storage, an optional navigation target, and either a
thrown error message or the returned outcome. On 401 the token is
cleared, the page is sent to the root (the paste-JWT gate) and the
function throws Unauthorized; otherwise raw responses are returned
as such, JSON responses are parsed and non-ok statuses throw the body
error message, and text responses behave likewise. -/
def requestHandle (raw : Bool) (res : ApiRes) (storage : Option String) :
    Option String × Option String × Except String ApiOutcome :=
  if res.status = 401 then
    (none, some "/", Except.error "Unauthorized")
  else if raw then
    (storage, none, Except.ok (ApiOutcome.raw res))
  else if ctHasJson res.contentType then
    if resOk res.status then (storage, none, Except.ok (ApiOutcome.js res.jsonBody))
    else (storage, none, Except.error (errFromJson res.jsonBody res.status))
  else
    if resOk res.status then (storage, none, Except.ok (ApiOutcome.txt res.textBody))
    else
      (storage, none,
        Except.error (if res.textBody != "" then res.textBody
                      else "HTTP " ++ toString res.status))

/-- Request issued by the sendChat helper of api.js: a POST to the chat
path whose body wraps the serialized history list. -/
def sendChatRequest (backendUrl authUrl storedToken : String)
    (history : List Json) : HttpRequest :=
  buildRequest backendUrl authUrl storedToken "/chat" "POST" []
    (some (Json.obj [("history", Json.arr history)]))

/-- Request issued by the sendMessage helper of api.js: a POST to the
per-thread messages path whose body carries the content field. -/
def sendMessageRequest (backendUrl authUrl storedToken : String)
    (chatId : Nat) (content : String) : HttpRequest :=
  buildRequest backendUrl authUrl storedToken
    ("/api/chats/" ++ toString chatId ++ "/messages") "POST" []
    (some (Json.obj [("content", Json.str content)]))

/-- A message of the widget state: sender, text and a timestamp, the
model of the objects the ChatWidget keeps in its messages array. -/
structure Msg where
  sender : String
  text : String
  time : Nat
deriving DecidableEq, Repr

/-- A message of the per-thread chats API: role, content and creation
time. -/
structure ApiMsg where
  role : String
  content : String
  createdAt : Nat
deriving DecidableEq, Repr

/-- A chat thread of the per-thread chats API, by its id. -/
structure ChatMeta where
  id : Nat
deriving DecidableEq, Repr

/-- Response body of the per-thread messages endpoint. -/
structure MessagesData where
  messages : List ApiMsg
deriving DecidableEq, Repr

/-- Response body of the legacy history endpoint. The messages field is
none when the response carries no array there, which the widgets treat
as an empty history. -/
structure HistoryData where
  messages : Option (List Msg)
deriving DecidableEq, Repr

/-- Parsing of a per-thread messages response in initializeChat: a role
of user maps to the user sender, every other role to the bot sender. -/
def parseApiMessages (md : MessagesData) : List Msg :=
  md.messages.map (fun m =>
    { sender := if m.role = "user" then "user" else "bot"
      text := m.content
      time := m.createdAt })

/-- Parsing of a legacy history response in the widgets: the messages
array is taken when it is an array and replaced by an empty list
otherwise, and each entry keeps its sender, text and time. -/
def parseHistory (d : HistoryData) : List Msg :=
  (d.messages.getD []).map (fun m =>
    { sender := m.sender, text := m.text, time := m.time })

/-- State of the dual-API ChatWidget: the message list, the input box,
the loading flag, the error banner, the active chat id and the flag
selecting the legacy endpoints. -/
structure CWState where
  messages : List Msg
  input : String
  loading : Bool
  error : Option String
  chatId : Option Nat
  usingLegacy : Bool
deriving DecidableEq, Repr

/-- Results the backend hands to one run of initializeChat, one per API
helper it may call. An error value models a rejected promise. -/
structure InitEnv where
  listChats : Except Unit (List ChatMeta)
  createChat : Except Unit ChatMeta
  getMessages : Nat → Except Unit MessagesData
  getHistory : Except Unit HistoryData

/-- Try block of initializeChat in the dual-API widget: list the chats,
take the first or create one, record its id and leave legacy mode, then
load and parse its messages. A thrown step yields the state reached so
far, on which the catch block runs. -/
def initTryNew (env : InitEnv) (s : CWState) : Except CWState CWState :=
  match env.listChats with
  | .error _ => .error s
  | .ok chatsList =>
    match (match chatsList with
           | [] => env.createChat
           | c :: _ => .ok c) with
    | .error _ => .error s
    | .ok c =>
      let s1 := { s with chatId := some c.id, usingLegacy := false }
      match env.getMessages c.id with
      | .error _ => .error s1
      | .ok md => .ok { s1 with messages := parseApiMessages md }

/-- Catch block of initializeChat: switch to the legacy endpoints, load
the history and parse it; when the history call also fails, set the
load-failure error banner. -/
def initFallbackLegacy (env : InitEnv) (s : CWState) : CWState :=
  let s1 := { s with usingLegacy := true }
  match env.getHistory with
  | .ok d => { s1 with messages := parseHistory d }
  | .error _ => { s1 with error := some "Failed to load chat history" }

/-- The initializeChat effect of the dual-API widget: loading is raised
and the error banner cleared, the new chats API is tried, any failure
falls back to the legacy history, and loading is lowered in the finally
block. -/
def initializeChat (env : InitEnv) (s : CWState) : CWState :=
  let s1 := { s with loading := true, error := none }
  let s2 :=
    match initTryNew env s1 with
    | .ok s' => s'
    | .error s' => initFallbackLegacy env s'
  { s2 with loading := false }

/-- Serialization of the chat turns for the legacy chat endpoint: a
message whose sender is user keeps the user role, every other message
gets the assistant role, and the content is the message text. -/
def roleContentJson (m : Msg) : Json :=
  Json.obj
    [("role", Json.str (if m.sender = "user" then "user" else "assistant")),
     ("content", Json.str m.text)]

/-- History payload built by the send handlers: the message list at the
start of the send, followed by the new user message, serialized for the
legacy chat endpoint. -/
def historyPayload (messages : List Msg) (userMsg : Msg) : List Json :=
  (messages ++ [userMsg]).map roleContentJson

/-- Environment of one run of the dual-API send handler: the configured
bases and stored token that the api helpers read, the clock values the
two Date constructions observe, and the backend results of the legacy
and per-thread send helpers. -/
structure SendEnv where
  backendUrl : String
  authUrl : String
  storedToken : String
  now : Nat
  replyTime : Nat
  sendChatResult : Except Unit String
  sendMessageResult : Except Unit String

/-- Error banner text the send handlers set on failure. -/
def oopsMsg : String := "⚠️ Oops—something went wrong. Please try again."

/-- Opening phase of both send handlers, run before any request: the
trimmed input is appended to the message list as the user message, the
input box is cleared and loading is raised. -/
def sendBegin (now : Nat) (s : CWState) : CWState :=
  { s with
    messages := s.messages ++ [{ sender := "user", text := jsTrim s.input, time := now }]
    input := ""
    loading := true }

/-- The send handler of the dual-API widget. Empty trimmed input returns
at once. Otherwise the user message is appended and loading raised, the
legacy or per-thread send helper is called, and a reply is appended as
the bot message. On failure, a widget in per-thread mode with a chat id
switches to legacy mode and retries the legacy send; when no fallback
applies or the fallback also fails, the error banner is set and the
appended user message is removed. The finally block lowers loading. The
second component lists the requests issued, in order. -/
def send (env : SendEnv) (s : CWState) : CWState × List HttpRequest :=
  let text := jsTrim s.input
  if text = "" then (s, [])
  else
    let userMsg : Msg := { sender := "user", text := text, time := env.now }
    let s1 := sendBegin env.now s
    let payload := historyPayload s.messages userMsg
    let primary : Except Unit String × List HttpRequest :=
      if s.usingLegacy then
        (env.sendChatResult,
         [sendChatRequest env.backendUrl env.authUrl env.storedToken payload])
      else
        match s.chatId with
        | some cid =>
          (env.sendMessageResult,
           [sendMessageRequest env.backendUrl env.authUrl env.storedToken cid text])
        | none => (.error (), [])
    match primary with
    | (.ok reply, reqs) =>
      ({ s1 with
          messages := s1.messages ++ [{ sender := "bot", text := reply, time := env.replyTime }]
          loading := false },
       reqs)
    | (.error _, reqs) =>
      if !s.usingLegacy && s.chatId.isSome then
        let s2 := { s1 with usingLegacy := true, chatId := none }
        let req2 := sendChatRequest env.backendUrl env.authUrl env.storedToken payload
        match env.sendChatResult with
        | .ok reply =>
          ({ s2 with
              messages := s2.messages ++ [{ sender := "bot", text := reply, time := env.replyTime }]
              loading := false },
           reqs ++ [req2])
        | .error _ =>
          ({ s2 with
              error := some oopsMsg
              messages := s2.messages.dropLast
              loading := false },
           reqs ++ [req2])
      else
        ({ s1 with
            error := some oopsMsg
            messages := s1.messages.dropLast
            loading := false },
         reqs)

/-- State of the legacy ChatWidget: message list, input box, loading
flag and error banner. -/
structure LWState where
  messages : List Msg
  input : String
  loading : Bool
  error : Option String
deriving DecidableEq, Repr

/-- Browser state the legacy widget touches directly: the jwt_token
entry of localStorage and whether the page was reloaded. -/
structure Browser where
  jwtToken : Option String
  reloaded : Bool
deriving DecidableEq, Repr

/-- Environment of the legacy widget: the imported backend base, the
token prop, and the clock values of the two Date constructions. -/
structure LWEnv where
  backendUrl : String
  token : String
  now : Nat
  replyTime : Nat
deriving DecidableEq, Repr

/-- Response to the history fetch of the legacy widget. The data field
is none when reading the JSON body fails, which lands in the catch
block. -/
structure LWHistRes where
  status : Nat
  data : Option HistoryData
deriving DecidableEq, Repr

/-- Response to the chat fetch of the legacy widget. The reply field is
none when no reply string can be read from the body, which lands in the
catch block. -/
structure LWChatRes where
  status : Nat
  reply : Option String
deriving DecidableEq, Repr

/-- Request issued by the history fetch of the legacy widget: a GET on
the history path of the imported backend base, with the bearer token of
the token prop. -/
def lwHistoryRequest (backendUrl token : String) : HttpRequest :=
  { url := backendUrl ++ "/history"
    method := "GET"
    headers := [("Authorization", "Bearer " ++ token)]
    body := none }

/-- Request issued by the send handler of the legacy widget: a POST on
the chat path of the imported backend base, with a JSON content type,
the bearer token of the token prop, and the serialized history body. -/
def lwChatRequest (backendUrl token : String) (history : List Json) :
    HttpRequest :=
  { url := backendUrl ++ "/chat"
    method := "POST"
    headers :=
      [("Content-Type", "application/json"),
       ("Authorization", "Bearer " ++ token)]
    body := some (Json.obj [("history", Json.arr history)]) }

/-- The history fetch effect of the legacy widget. Without a token it
does nothing. Otherwise loading is raised and the history endpoint hit:
a 401 removes the stored token and reloads the page, an ok response
replaces the message list by the parsed history, and any failure is only
logged. The finally step lowers loading on every path. -/
def lwHistoryFetch (env : LWEnv) (res : LWHistRes) (b : Browser)
    (s : LWState) : LWState × Browser :=
  if env.token = "" then (s, b)
  else
    let s1 := { s with loading := true }
    if res.status = 401 then
      ({ s1 with loading := false },
       { b with jwtToken := none, reloaded := true })
    else if resOk res.status then
      match res.data with
      | some d =>
        ({ s1 with messages := parseHistory d, loading := false }, b)
      | none => ({ s1 with loading := false }, b)
    else ({ s1 with loading := false }, b)

/-- Opening phase of the legacy send handler, run before the request:
append the trimmed input as the user message, clear the input box and
raise loading. -/
def lwSendBegin (now : Nat) (s : LWState) : LWState :=
  { s with
    messages := s.messages ++ [{ sender := "user", text := jsTrim s.input, time := now }]
    input := ""
    loading := true }

/-- The send handler of the legacy widget. Empty trimmed input returns
at once. Otherwise the user message is appended, loading raised, and the
chat endpoint called with the serialized history: a 401 removes the
stored token and reloads, an ok reply is appended as the bot message,
and any other failure sets the error banner. The appended user message
is never removed here. The finally block lowers loading. -/
def lwSend (env : LWEnv) (res : LWChatRes) (b : Browser) (s : LWState) :
    LWState × Browser × List HttpRequest :=
  let text := jsTrim s.input
  if text = "" then (s, b, [])
  else
    let userMsg : Msg := { sender := "user", text := text, time := env.now }
    let s1 := lwSendBegin env.now s
    let req := lwChatRequest env.backendUrl env.token
      (historyPayload s.messages userMsg)
    if res.status = 401 then
      ({ s1 with loading := false },
       { b with jwtToken := none, reloaded := true }, [req])
    else if resOk res.status then
      match res.reply with
      | some r =>
        ({ s1 with
            messages := s1.messages ++ [{ sender := "bot", text := r, time := env.replyTime }]
            loading := false },
         b, [req])
      | none => ({ s1 with error := some oopsMsg, loading := false }, b, [req])
    else ({ s1 with error := some oopsMsg, loading := false }, b, [req])

/-- URL state the token hook touches: the jwt query parameter, none when
the URL does not contain one. -/
structure PageUrl where
  jwtParam : Option String
deriving DecidableEq, Repr

/-- Page state at load: the jwt_token entry of localStorage, the URL,
and whether the history entry was replaced. -/
structure LoadState where
  storage : Option String
  url : PageUrl
  historyReplaced : Bool
deriving DecidableEq, Repr

/-- Query-parameter branch of the useJwtToken initializer: a truthy jwt
parameter is persisted under jwt_token, removed from the URL with a
history replacement, and returned as the token; otherwise the token is
null and nothing changes. -/
def initFromParam (ls : LoadState) : Option String × LoadState :=
  match ls.url.jwtParam with
  | some qp =>
    if qp ≠ "" then
      (some qp,
       { storage := some qp, url := { jwtParam := none }, historyReplaced := true })
    else (none, ls)
  | none => (none, ls)

/-- Initializer of the useJwtToken hook of App.jsx: a truthy stored
token is returned as is, and only otherwise is the jwt query parameter
consulted. -/
def useJwtTokenInit (ls : LoadState) : Option String × LoadState :=
  match ls.storage with
  | some t => if t ≠ "" then (some t, ls) else initFromParam ls
  | none => initFromParam ls

/-- Persistence effect of the useJwtToken hook: a truthy token is
written to storage, any other token removes the entry. -/
def tokenEffect (token : Option String) : Option String :=
  match token with
  | some t => if t ≠ "" then some t else none
  | none => none

/-- One page load through the token hook: the initializer runs, then the
persistence effect settles the storage entry. -/
def pageLoad (ls : LoadState) : Option String × LoadState :=
  let (tok, ls') := useJwtTokenInit ls
  (tok, { ls' with storage := tokenEffect tok })

/-- Value of a base64 alphabet character, none outside the alphabet. -/
def b64Val (c : Char) : Option Nat :=
  if 'A' ≤ c ∧ c ≤ 'Z' then some (c.toNat - 65)
  else if 'a' ≤ c ∧ c ≤ 'z' then some (c.toNat - 97 + 26)
  else if '0' ≤ c ∧ c ≤ '9' then some (c.toNat - 48 + 52)
  else if c = '+' then some 62
  else if c = '/' then some 63
  else none

/-- Bytes of a list of 6-bit groups, following forgiving base64: a
single trailing group fails, two or three trailing groups drop their
spare bits. -/
def b64Bytes : List Nat → Option (List Nat)
  | [] => some []
  | [_] => none
  | [a, b] => some [a * 4 + b / 16]
  | [a, b, c] => some [a * 4 + b / 16, b % 16 * 16 + c / 4]
  | a :: b :: c :: d :: rest =>
    (b64Bytes rest).map
      (fun bs => (a * 4 + b / 16) :: (b % 16 * 16 + c / 4) :: (c % 4 * 64 + d) :: bs)

/-- Model of the atob built-in: forgiving base64 decoding. ASCII
whitespace is removed, up to two trailing padding characters are
stripped when the length is a multiple of four, a remainder of one group
or any character outside the alphabet fails. -/
def atob (input : String) : Option (List Nat) :=
  let cs := input.data.filter (fun c =>
    !(c == ' ' || c == '\t' || c == '\n' || c == '\r' || c == Char.ofNat 12))
  let cs :=
    if cs.length % 4 = 0 then
      match cs.reverse with
      | '=' :: '=' :: rest => rest.reverse
      | '=' :: rest => rest.reverse
      | _ => cs
    else cs
  if cs.length % 4 = 1 then none
  else
    match cs.mapM b64Val with
    | some vals => b64Bytes vals
    | none => none

/-- Model of the UTF-8 decoding performed by the percent-escaping and
decodeURIComponent pipeline of parseJwt: byte sequences outside valid
UTF-8 (stray continuations, overlong forms, surrogates, values past the
last code point) fail. -/
def utf8Decode : List Nat → Option (List Char)
  | [] => some []
  | b :: rest =>
    if b < 0x80 then (utf8Decode rest).map (Char.ofNat b :: ·)
    else if b < 0xC2 then none
    else if b < 0xE0 then
      match rest with
      | b2 :: rest2 =>
        if 0x80 ≤ b2 ∧ b2 < 0xC0 then
          (utf8Decode rest2).map (Char.ofNat ((b - 0xC0) * 64 + (b2 - 0x80)) :: ·)
        else none
      | [] => none
    else if b < 0xF0 then
      match rest with
      | b2 :: b3 :: rest3 =>
        let lo2 := if b = 0xE0 then 0xA0 else 0x80
        let hi2 := if b = 0xED then 0xA0 else 0xC0
        if (lo2 ≤ b2 ∧ b2 < hi2) ∧ (0x80 ≤ b3 ∧ b3 < 0xC0) then
          (utf8Decode rest3).map
            (Char.ofNat ((b - 0xE0) * 4096 + (b2 - 0x80) * 64 + (b3 - 0x80)) :: ·)
        else none
      | _ => none
    else if b < 0xF5 then
      match rest with
      | b2 :: b3 :: b4 :: rest4 =>
        let lo2 := if b = 0xF0 then 0x90 else 0x80
        let hi2 := if b = 0xF4 then 0x90 else 0xC0
        if (lo2 ≤ b2 ∧ b2 < hi2) ∧ (0x80 ≤ b3 ∧ b3 < 0xC0)
            ∧ (0x80 ≤ b4 ∧ b4 < 0xC0) then
          (utf8Decode rest4).map
            (Char.ofNat ((b - 0xF0) * 262144 + (b2 - 0x80) * 4096
              + (b3 - 0x80) * 64 + (b4 - 0x80)) :: ·)
        else none
      | _ => none
    else none

/-- JSON insignificant whitespace. -/
def jsonWs (c : Char) : Bool :=
  c == ' ' || c == '\t' || c == '\n' || c == '\r'

/-- Value of one hexadecimal digit. -/
def hexVal (c : Char) : Option Nat :=
  if '0' ≤ c ∧ c ≤ '9' then some (c.toNat - 48)
  else if 'a' ≤ c ∧ c ≤ 'f' then some (c.toNat - 87)
  else if 'A' ≤ c ∧ c ≤ 'F' then some (c.toNat - 55)
  else none

/-- Contents of a JSON string after the opening quote: the decoded
characters and the input after the closing quote. Escape sequences
follow the JSON grammar. -/
def pStrChars : List Char → Option (List Char × List Char)
  | [] => none
  | '"' :: rest => some ([], rest)
  | '\\' :: esc =>
    match esc with
    | 'u' :: h1 :: h2 :: h3 :: h4 :: rest =>
      match hexVal h1, hexVal h2, hexVal h3, hexVal h4 with
      | some v1, some v2, some v3, some v4 =>
        (pStrChars rest).map
          (fun p => (Char.ofNat (v1 * 4096 + v2 * 256 + v3 * 16 + v4) :: p.1, p.2))
      | _, _, _, _ => none
    | c :: rest =>
      let ch : Option Char :=
        if c == '"' ∨ c == '\\' ∨ c == '/' then some c
        else if c == 'b' then some (Char.ofNat 8)
        else if c == 'f' then some (Char.ofNat 12)
        else if c == 'n' then some '\n'
        else if c == 'r' then some '\r'
        else if c == 't' then some '\t'
        else none
      match ch with
      | some ch' => (pStrChars rest).map (fun p => (ch' :: p.1, p.2))
      | none => none
    | [] => none
  | c :: rest => (pStrChars rest).map (fun p => (c :: p.1, p.2))

/-- Exponent part of a JSON number, appended to the literal collected so
far. -/
def pExp (acc : List Char) (cs : List Char) : Option (String × List Char) :=
  match cs with
  | e :: r =>
    if e == 'e' || e == 'E' then
      let (sgn, r1) :=
        match r with
        | '+' :: r' => (['+'], r')
        | '-' :: r' => (['-'], r')
        | _ => (([] : List Char), r)
      let ds := r1.takeWhile (fun c => c.isDigit)
      let r2 := r1.dropWhile (fun c => c.isDigit)
      if ds = [] then none
      else some (String.mk (acc ++ e :: (sgn ++ ds)), r2)
    else some (String.mk acc, cs)
  | [] => some (String.mk acc, [])

/-- A JSON number literal: optional minus, integer part without a
spurious leading zero, optional fraction, optional exponent. The literal
text is kept. -/
def pNum (cs : List Char) : Option (String × List Char) :=
  let (sign, cs1) :=
    match cs with
    | '-' :: r => ((['-'] : List Char), r)
    | _ => (([] : List Char), cs)
  let ip := cs1.takeWhile (fun c => c.isDigit)
  let cs2 := cs1.dropWhile (fun c => c.isDigit)
  if ip = [] then none
  else if ip.length > 1 ∧ ip.head? = some '0' then none
  else
    match cs2 with
    | '.' :: r =>
      let ds := r.takeWhile (fun c => c.isDigit)
      let r2 := r.dropWhile (fun c => c.isDigit)
      if ds = [] then none
      else pExp (sign ++ ip ++ '.' :: ds) r2
    | _ => pExp (sign ++ ip) cs2

mutual

/-- A JSON value, by recursive descent with fuel. -/
def pVal : Nat → List Char → Option (Json × List Char)
  | 0, _ => none
  | Nat.succ fuel, cs =>
    match cs.dropWhile jsonWs with
    | 'n' :: 'u' :: 'l' :: 'l' :: rest => some (.null, rest)
    | 't' :: 'r' :: 'u' :: 'e' :: rest => some (.bool true, rest)
    | 'f' :: 'a' :: 'l' :: 's' :: 'e' :: rest => some (.bool false, rest)
    | '"' :: rest => (pStrChars rest).map (fun p => (.str (String.mk p.1), p.2))
    | '[' :: rest =>
      (match rest.dropWhile jsonWs with
       | ']' :: r2 => some (.arr [], r2)
       | _ => (pArrItems fuel rest).map (fun p => (.arr p.1, p.2)))
    | '\x7b' :: rest =>
      (match rest.dropWhile jsonWs with
       | '\x7d' :: r2 => some (.obj [], r2)
       | _ => (pObjItems fuel rest).map (fun p => (.obj p.1, p.2)))
    | cs' => (pNum cs').map (fun p => (.num p.1, p.2))

/-- Comma-separated items of a non-empty JSON array, up to the closing
bracket. -/
def pArrItems : Nat → List Char → Option (List Json × List Char)
  | 0, _ => none
  | Nat.succ fuel, cs => do
    let (v, cs1) ← pVal fuel cs
    match cs1.dropWhile jsonWs with
    | ',' :: r => (pArrItems fuel r).map (fun p => (v :: p.1, p.2))
    | ']' :: r => some ([v], r)
    | _ => none

/-- Comma-separated members of a non-empty JSON object, up to the
closing brace. -/
def pObjItems : Nat → List Char → Option (List (String × Json) × List Char)
  | 0, _ => none
  | Nat.succ fuel, cs =>
    match cs.dropWhile jsonWs with
    | '"' :: r => do
      let (k, r1) ← pStrChars r
      match r1.dropWhile jsonWs with
      | ':' :: r2 => do
        let (v, r3) ← pVal fuel r2
        match r3.dropWhile jsonWs with
        | ',' :: r4 => (pObjItems fuel r4).map (fun p => ((String.mk k, v) :: p.1, p.2))
        | '\x7d' :: r4 => some ([(String.mk k, v)], r4)
        | _ => none
      | _ => none
    | _ => none

end

/-- Model of the JSON.parse built-in over the Json value type: a single
value with only trailing whitespace. -/
def jsonParse (s : String) : Option Json :=
  match pVal (2 * s.data.length + 2) s.data with
  | some (v, rest) => if rest.dropWhile jsonWs = [] then some v else none
  | none => none

/-- Model of parseJwt of the ChatWidget sources: a falsy token yields
null; otherwise the second dot-separated segment is mapped from the
base64url to the base64 alphabet, decoded with atob, read as UTF-8 and
parsed as JSON, any failure along the way yielding null through the
catch block. A token without a dot has no second segment, which throws
and yields null. -/
def parseJwt (token : Option String) : Option Json :=
  match token with
  | none => none
  | some t =>
    if t = "" then none
    else
      match (splitAtChar '.' t.data)[1]? with
      | none => none
      | some base64UrlChars =>
        let base64Url := String.mk base64UrlChars
        let base64 := String.mk (base64Url.data.map (fun c =>
          if c == '-' then '+' else if c == '_' then '/' else c))
        match atob base64 with
        | none => none
        | some bytes =>
          match utf8Decode bytes with
          | none => none
          | some chars => jsonParse (String.mk chars)

/-- The user id the widgets display: the sub field of the decoded
payload when it is truthy, the unknown placeholder otherwise. -/
def userId (token : Option String) : Json :=
  match (parseJwt token).bind (fun p => jsField p "sub") with
  | some v => if jsTruthy v then v else Json.str "unknown"
  | none => Json.str "unknown"

/-- Whether a promise result resolved rather than rejected. -/
def exceptOk {ε α : Type} : Except ε α → Bool
  | .ok _ => true
  | .error _ => false

/-!
Theorems. The helper lemmas come first, then, claim by claim, the
statements settling the specification.
-/

/-- Head of a dropWhile never satisfies the dropped predicate. -/
theorem head_dropWhile_not_pred {p : Char → Bool} :
    ∀ (l : List Char) (c : Char), (l.dropWhile p).head? = some c → p c = false := by
  intro l
  induction l with
  | nil => intro c h; simp [List.dropWhile] at h
  | cons a as ih =>
    intro c h
    by_cases ha : p a
    · rw [List.dropWhile_cons_of_pos ha] at h
      exact ih c h
    · rw [List.dropWhile_cons_of_neg ha] at h
      simp at h
      rw [← h]
      exact Bool.eq_false_iff.mpr ha

/-- Stripping trailing slashes leaves no trailing slash. -/
theorem strip_trailing_no_slash (s : String) :
    endsInSlash (stripTrailingSlashes s) = false := by
  unfold endsInSlash stripTrailingSlashes
  show ((((s.data.reverse.dropWhile (fun c => c == '/'))).reverse.getLast?) == some '/') = false
  rw [List.getLast?_reverse]
  cases h : (s.data.reverse.dropWhile (fun c => c == '/')).head? with
  | none => rfl
  | some c =>
    have hc := head_dropWhile_not_pred _ _ h
    simp only [beq_eq_false_iff_ne, ne_eq, Option.some.injEq]
    simpa using hc

/-- Dropping leading slashes leaves no leading slash. -/
theorem drop_leading_no_slash (s : String) :
    startsSlash (dropLeadingSlashes s) = false := by
  unfold startsSlash dropLeadingSlashes
  cases h : (s.data.dropWhile (fun c => c == '/')) with
  | nil => rfl
  | cons c rest =>
    have hc : (s.data.dropWhile (fun c => c == '/')).head? = some c := by
      rw [h]; rfl
    exact head_dropWhile_not_pred _ _ hc

/-- Last-wins lookup over a concatenation checks the right part first. -/
theorem lookupLast_append (l1 l2 : List (String × String)) (k : String) :
    lookupLast (l1 ++ l2) k
      = match lookupLast l2 k with
        | some r => some r
        | none => lookupLast l1 k := by
  induction l1 with
  | nil => simp [lookupLast]; cases lookupLast l2 k <;> rfl
  | cons kv rest ih =>
    have hstep : lookupLast ((kv :: rest) ++ l2) k
        = match lookupLast (rest ++ l2) k with
          | some r => some r
          | none => if kv.1 = k then some kv.2 else none := rfl
    rw [hstep, ih]
    cases lookupLast l2 k with
    | some r => rfl
    | none => rfl

/-- C7: URL building from a configurable base. A path that starts with
http is used unchanged; any other path yields base, one slash, then the
path with its leading slashes stripped, where the base is the auth base
for paths starting with /auth and the backend base otherwise; the bases
default to /auth and /api and carry no trailing slash, and the joined
path starts with no slash, so exactly one slash stands between base and
path. -/
theorem request_url_building (envB envA : Option String) (path : String) :
    (strBegins path "http" = true →
      buildUrl (BACKEND_URL_of envB) (AUTH_URL_of envA) path = path)
    ∧ (strBegins path "http" = false →
      buildUrl (BACKEND_URL_of envB) (AUTH_URL_of envA) path
          = (if strBegins path "/auth" then AUTH_URL_of envA
             else BACKEND_URL_of envB)
            ++ "/" ++ dropLeadingSlashes path
        ∧ endsInSlash
            (if strBegins path "/auth" then AUTH_URL_of envA
             else BACKEND_URL_of envB) = false
        ∧ startsSlash (dropLeadingSlashes path) = false)
    ∧ BACKEND_URL_of none = "/api" ∧ AUTH_URL_of none = "/auth" := by
  refine ⟨?_, ?_, rfl, rfl⟩
  · intro h
    unfold buildUrl
    rw [h]
    rfl
  · intro h
    unfold buildUrl
    rw [h]
    refine ⟨rfl, ?_, drop_leading_no_slash path⟩
    by_cases ha : strBegins path "/auth"
    · rw [if_pos ha]
      exact strip_trailing_no_slash _
    · rw [if_neg ha]
      exact strip_trailing_no_slash _

/-- Witness for the URL building claim at a concrete input: the default
backend base and a path with doubled leading slashes join with exactly
one separating slash. -/
theorem request_url_building_witness :
    buildUrl (BACKEND_URL_of none) (AUTH_URL_of none) "//history"
        = (if strBegins "//history" "/auth" then AUTH_URL_of none
           else BACKEND_URL_of none) ++ "/" ++ dropLeadingSlashes "//history"
    ∧ startsSlash (dropLeadingSlashes "//history") = false :=
  ⟨((request_url_building none none "//history").2.1 rfl).1,
   ((request_url_building none none "//history").2.1 rfl).2.2⟩

/-- C3 counterexample: with a token already in storage and a different
token in the jwt query parameter, the hook returns the stored token, not
the parameter value, so the parameter does not override storage. -/
theorem jwt_param_does_not_override_stored :
    (useJwtTokenInit
        { storage := some "stored-token"
          url := { jwtParam := some "param-token" }
          historyReplaced := false }).1 = some "stored-token"
    ∧ (useJwtTokenInit
        { storage := some "stored-token"
          url := { jwtParam := some "param-token" }
          historyReplaced := false }).1 ≠ some "param-token" := by
  decide

/-- C3 amended: the jwt query parameter becomes the active token only
when client-persistent storage holds no truthy token; a stored non-empty
token takes precedence and the parameter value is not adopted. -/
theorem jwt_param_adopted_only_without_stored_token
    (ls : LoadState) (v : String)
    (hp : ls.url.jwtParam = some v) (hv : v ≠ "") :
    ((ls.storage = none ∨ ls.storage = some "") →
        (useJwtTokenInit ls).1 = some v)
    ∧ (∀ t, ls.storage = some t → t ≠ "" →
        (useJwtTokenInit ls).1 = some t) := by
  constructor
  · intro hs
    cases hs with
    | inl h => simp [useJwtTokenInit, h, initFromParam, hp, hv]
    | inr h => simp [useJwtTokenInit, h, initFromParam, hp, hv]
  · intro t ht htne
    simp [useJwtTokenInit, ht, htne]

/-- Witness for the amended query-parameter claim at a concrete input:
with empty storage the parameter is adopted, with a stored token the
stored token wins. -/
theorem jwt_param_adopted_only_without_stored_token_witness :
    (useJwtTokenInit
        { storage := none, url := { jwtParam := some "qp-token" }
          historyReplaced := false }).1 = some "qp-token"
    ∧ (useJwtTokenInit
        { storage := some "kept", url := { jwtParam := some "qp-token" }
          historyReplaced := false }).1 = some "kept" :=
  ⟨(jwt_param_adopted_only_without_stored_token
      { storage := none, url := { jwtParam := some "qp-token" }
        historyReplaced := false } "qp-token" rfl (by decide)).1
      (Or.inl rfl),
   (jwt_param_adopted_only_without_stored_token
      { storage := some "kept", url := { jwtParam := some "qp-token" }
        historyReplaced := false } "qp-token" rfl (by decide)).2
      "kept" rfl (by decide)⟩

/-- C6 counterexample: a jwt query parameter that is present with an
empty value is not adopted, not persisted and not removed from the URL,
although storage holds no token. -/
theorem empty_jwt_param_not_consumed :
    useJwtTokenInit
        { storage := none, url := { jwtParam := some "" }
          historyReplaced := false }
      = (none,
         { storage := none, url := { jwtParam := some "" }
           historyReplaced := false }) := by
  decide

/-- C6 amended: on an initial load with no stored token and a jwt query
parameter carrying a non-empty value, the hook adopts the value as the
token, persists it under the jwt_token key, deletes the parameter from
the URL replacing the history entry, and a subsequent load finds the
token in storage and leaves everything unchanged, so the parameter is
consumed exactly once. -/
theorem jwt_param_consumed_once (ls : LoadState) (v : String)
    (h0 : ls.storage = none) (hp : ls.url.jwtParam = some v) (hv : v ≠ "") :
    (useJwtTokenInit ls).1 = some v
    ∧ (useJwtTokenInit ls).2.storage = some v
    ∧ (useJwtTokenInit ls).2.url.jwtParam = none
    ∧ (useJwtTokenInit ls).2.historyReplaced = true
    ∧ (useJwtTokenInit (useJwtTokenInit ls).2).1 = some v
    ∧ (useJwtTokenInit (useJwtTokenInit ls).2).2 = (useJwtTokenInit ls).2 := by
  have hinit : useJwtTokenInit ls
      = (some v,
         { storage := some v, url := { jwtParam := none }
           historyReplaced := true }) := by
    simp [useJwtTokenInit, h0, initFromParam, hp, hv]
  rw [hinit]
  refine ⟨rfl, rfl, rfl, rfl, ?_, ?_⟩
  · simp [useJwtTokenInit, hv]
  · simp [useJwtTokenInit, hv]

/-- Witness for the amended one-time consumption claim at a concrete
input. -/
theorem jwt_param_consumed_once_witness :
    (useJwtTokenInit
        { storage := none, url := { jwtParam := some "tok123" }
          historyReplaced := false }).2.storage = some "tok123"
    ∧ (useJwtTokenInit
        { storage := none, url := { jwtParam := some "tok123" }
          historyReplaced := false }).2.url.jwtParam = none :=
  ⟨(jwt_param_consumed_once
      { storage := none, url := { jwtParam := some "tok123" }
        historyReplaced := false } "tok123" rfl rfl (by decide)).2.1,
   (jwt_param_consumed_once
      { storage := none, url := { jwtParam := some "tok123" }
        historyReplaced := false } "tok123" rfl rfl (by decide)).2.2.1⟩

/-- A failed run of the try block of initializeChat leaves the error
banner it received. -/
theorem initTryNew_error_state (env : InitEnv) (s s' : CWState)
    (h : initTryNew env s = .error s') : s'.error = s.error := by
  unfold initTryNew at h
  split at h
  · injection h with h'
    rw [← h']
  · split at h
    · injection h with h'
      rw [← h']
    · split at h
      · injection h with h'
        rw [← h']
      · exact Except.noConfusion h

/-- C1: graceful fallback between API shapes. When any step of the new
per-thread chats path fails during initialization, the widget switches
to legacy mode; when the legacy history call succeeds, its parsed
message list becomes the widget message list and no error is surfaced;
an initialization error can be surfaced only when the legacy history
call also fails. -/
theorem initializeChat_falls_back_to_history (env : InitEnv) (s : CWState)
    (hfail : exceptOk
        (initTryNew env { s with loading := true, error := none }) = false) :
    (initializeChat env s).usingLegacy = true
    ∧ (∀ d, env.getHistory = .ok d →
        (initializeChat env s).messages = parseHistory d
        ∧ (initializeChat env s).error = none)
    ∧ ((initializeChat env s).error.isSome = true →
        exceptOk env.getHistory = false) := by
  cases htry : initTryNew env { s with loading := true, error := none } with
  | ok s2 =>
    rw [htry] at hfail
    simp [exceptOk] at hfail
  | error s2 =>
    have herr : s2.error = none :=
      initTryNew_error_state env _ s2 htry
    have hinit : initializeChat env s
        = { initFallbackLegacy env s2 with loading := false } := by
      simp only [initializeChat]
      rw [htry]
    rw [hinit]
    unfold initFallbackLegacy
    cases hh : env.getHistory with
    | ok d =>
      refine ⟨rfl, ?_, ?_⟩
      · intro d' hd'
        injection hd' with hdd
        subst hdd
        exact ⟨rfl, herr⟩
      · intro habs
        rw [herr] at habs
        exact absurd habs (by simp)
    | error e =>
      refine ⟨rfl, ?_, ?_⟩
      · intro d hd
        exact Except.noConfusion hd
      · intro _
        rfl

/-- Witness for the initialization fallback at a concrete input: the
chats listing rejects, the legacy history resolves, and the widget ends
in legacy mode showing the parsed history. -/
theorem initializeChat_falls_back_to_history_witness :
    (initializeChat
        { listChats := Except.error (), createChat := Except.error ()
          getMessages := fun _ => Except.error ()
          getHistory := Except.ok
            { messages := some [{ sender := "user", text := "hi", time := 5 }] } }
        { messages := [], input := "", loading := false, error := none
          chatId := none, usingLegacy := false }).usingLegacy = true
    ∧ (initializeChat
        { listChats := Except.error (), createChat := Except.error ()
          getMessages := fun _ => Except.error ()
          getHistory := Except.ok
            { messages := some [{ sender := "user", text := "hi", time := 5 }] } }
        { messages := [], input := "", loading := false, error := none
          chatId := none, usingLegacy := false }).messages
      = parseHistory
          { messages := some [{ sender := "user", text := "hi", time := 5 }] } := by
  have h := initializeChat_falls_back_to_history
    { listChats := Except.error (), createChat := Except.error ()
      getMessages := fun _ => Except.error ()
      getHistory := Except.ok
        { messages := some [{ sender := "user", text := "hi", time := 5 }] } }
    { messages := [], input := "", loading := false, error := none
      chatId := none, usingLegacy := false }
    (by rfl)
  exact ⟨h.1, (h.2.1 _ rfl).1⟩

/-- C2: optimistic send with rollback. With non-empty trimmed input, the
opening phase appends the user message to the message list before any
request; when the attempt fails and no successful legacy fallback send
happens, the final message list equals the list from before the send and
the error banner is set. -/
theorem send_rollback_on_total_failure (env : SendEnv) (s : CWState)
    (hne : ¬ jsTrim s.input = "")
    (hfail :
      (s.usingLegacy = true ∧ exceptOk env.sendChatResult = false)
      ∨ (s.usingLegacy = false ∧ s.chatId = none)
      ∨ (s.usingLegacy = false ∧ (∃ cid, s.chatId = some cid)
          ∧ exceptOk env.sendMessageResult = false
          ∧ exceptOk env.sendChatResult = false)) :
    (sendBegin env.now s).messages
      = s.messages ++ [{ sender := "user", text := jsTrim s.input, time := env.now }]
    ∧ (send env s).1.messages = s.messages
    ∧ (send env s).1.error = some oopsMsg := by
  refine ⟨rfl, ?_⟩
  rcases hfail with ⟨hU, hCf⟩ | ⟨hU, hC⟩ | ⟨hU, ⟨cid, hC⟩, hMf, hCf⟩
  · cases henv : env.sendChatResult with
    | ok r => rw [henv] at hCf; simp [exceptOk] at hCf
    | error e =>
      constructor <;>
        simp [send, sendBegin, hne, hU, henv, List.dropLast_concat]
  · constructor <;>
      simp [send, sendBegin, hne, hU, hC, List.dropLast_concat]
  · cases hM : env.sendMessageResult with
    | ok r => rw [hM] at hMf; simp [exceptOk] at hMf
    | error e =>
      cases hR : env.sendChatResult with
      | ok r => rw [hR] at hCf; simp [exceptOk] at hCf
      | error e' =>
        constructor <;>
          simp [send, sendBegin, hne, hU, hC, hM, hR, List.dropLast_concat]

/-- Witness for the send rollback at a concrete input: a legacy-mode
widget whose chat call rejects ends with its original message list and
the error banner. -/
theorem send_rollback_on_total_failure_witness :
    (send
        { backendUrl := "/api", authUrl := "/auth", storedToken := "t"
          now := 1, replyTime := 2
          sendChatResult := Except.error ()
          sendMessageResult := Except.error () }
        { messages := [{ sender := "bot", text := "hello", time := 0 }]
          input := " hi ", loading := false, error := none
          chatId := none, usingLegacy := true }).1.messages
      = [{ sender := "bot", text := "hello", time := 0 }]
    ∧ (send
        { backendUrl := "/api", authUrl := "/auth", storedToken := "t"
          now := 1, replyTime := 2
          sendChatResult := Except.error ()
          sendMessageResult := Except.error () }
        { messages := [{ sender := "bot", text := "hello", time := 0 }]
          input := " hi ", loading := false, error := none
          chatId := none, usingLegacy := true }).1.error = some oopsMsg := by
  have h := send_rollback_on_total_failure
    { backendUrl := "/api", authUrl := "/auth", storedToken := "t"
      now := 1, replyTime := 2
      sendChatResult := Except.error ()
      sendMessageResult := Except.error () }
    { messages := [{ sender := "bot", text := "hello", time := 0 }]
      input := " hi ", loading := false, error := none
      chatId := none, usingLegacy := true }
    (by decide)
    (Or.inl ⟨rfl, rfl⟩)
  exact ⟨h.2.1, h.2.2⟩

/-- C5: each request cycle of the widgets raises loading at its start
and lowers it at its completion, on success and on every error path, so
no completed cycle leaves the widget stuck loading: the legacy history
fetch, the legacy send, the chat initialization and the dual-API send
all end with loading false. -/
theorem request_cycles_reset_loading :
    (∀ (env : LWEnv) (res : LWHistRes) (b : Browser) (s : LWState),
        env.token ≠ "" → (lwHistoryFetch env res b s).1.loading = false)
    ∧ (∀ (env : LWEnv) (res : LWChatRes) (b : Browser) (s : LWState),
        jsTrim s.input ≠ "" →
          (lwSendBegin env.now s).loading = true
          ∧ (lwSend env res b s).1.loading = false)
    ∧ (∀ (env : InitEnv) (s : CWState), (initializeChat env s).loading = false)
    ∧ (∀ (env : SendEnv) (s : CWState),
        jsTrim s.input ≠ "" →
          (sendBegin env.now s).loading = true
          ∧ (send env s).1.loading = false) := by
  refine ⟨?_, ?_, ?_, ?_⟩
  · intro env res b s htok
    unfold lwHistoryFetch
    rw [if_neg htok]
    split
    · rfl
    · split
      · split <;> rfl
      · rfl
  · intro env res b s hne
    refine ⟨rfl, ?_⟩
    unfold lwSend
    rw [if_neg hne]
    split
    · rfl
    · split
      · split <;> rfl
      · rfl
  · intro env s
    unfold initializeChat
    rfl
  · intro env s hne
    refine ⟨rfl, ?_⟩
    cases hU : s.usingLegacy <;> cases hC : s.chatId <;>
      cases hR : env.sendChatResult <;> cases hM : env.sendMessageResult <;>
        simp [send, sendBegin, hne, hU, hC, hR, hM]

/-- Witness for the loading reset at concrete inputs: one completed
cycle of each kind ends with loading false. -/
theorem request_cycles_reset_loading_witness :
    (lwHistoryFetch
        { backendUrl := "/api", token := "t", now := 1, replyTime := 2 }
        { status := 500, data := none }
        { jwtToken := some "t", reloaded := false }
        { messages := [], input := "", loading := false, error := none }).1.loading
      = false
    ∧ (send
        { backendUrl := "/api", authUrl := "/auth", storedToken := "t"
          now := 1, replyTime := 2
          sendChatResult := Except.ok "reply"
          sendMessageResult := Except.ok "reply" }
        { messages := [], input := "hi", loading := false, error := none
          chatId := some 3, usingLegacy := false }).1.loading = false := by
  constructor
  · exact request_cycles_reset_loading.1
      { backendUrl := "/api", token := "t", now := 1, replyTime := 2 }
      { status := 500, data := none }
      { jwtToken := some "t", reloaded := false }
      { messages := [], input := "", loading := false, error := none }
      (by decide)
  · exact (request_cycles_reset_loading.2.2.2
      { backendUrl := "/api", authUrl := "/auth", storedToken := "t"
        now := 1, replyTime := 2
        sendChatResult := Except.ok "reply"
        sendMessageResult := Except.ok "reply" }
      { messages := [], input := "hi", loading := false, error := none
        chatId := some 3, usingLegacy := false }
      (by decide)).2

/-- C4 counterexample: a caller-supplied Authorization header is spread
after the base headers and overrides the bearer token, so a request made
while a non-empty token is stored can go out without the bearer
header. -/
theorem request_auth_header_can_be_overridden :
    lookupLast (buildRequest "/api" "/auth" "stored-token" "/history" "GET"
        [("Authorization", "Basic abc")] none).headers "Authorization"
      = some "Basic abc"
    ∧ lookupLast (buildRequest "/api" "/auth" "stored-token" "/history" "GET"
        [("Authorization", "Basic abc")] none).headers "Authorization"
      ≠ some ("Bearer " ++ "stored-token") := by
  decide

/-- C4 amended: every request issued through the request function while
a non-empty token is stored and whose caller options carry no
Authorization header of their own goes out with the bearer token header;
the history fetch and chat send of the legacy widget attach the bearer
token of the widget token unconditionally. -/
theorem request_attaches_bearer_token
    (backendUrl authUrl storedToken path method : String)
    (extraHeaders : List (String × String)) (body : Option Json)
    (htok : storedToken ≠ "")
    (hover : lookupLast extraHeaders "Authorization" = none) :
    lookupLast (buildRequest backendUrl authUrl storedToken path method
        extraHeaders body).headers "Authorization"
      = some ("Bearer " ++ storedToken)
    ∧ (∀ bu tok : String,
        lookupLast (lwHistoryRequest bu tok).headers "Authorization"
          = some ("Bearer " ++ tok))
    ∧ (∀ (bu tok : String) (hist : List Json),
        lookupLast (lwChatRequest bu tok hist).headers "Authorization"
          = some ("Bearer " ++ tok)) := by
  refine ⟨?_, ?_, ?_⟩
  · have hbt : (storedToken != "") = true := by
      simpa using htok
    unfold buildRequest
    simp only [hbt, if_true, lookupLast_append, hover, lookupLast]
  · intro bu tok
    simp [lwHistoryRequest, lookupLast]
  · intro bu tok hist
    simp [lwChatRequest, lookupLast]

/-- Witness for the amended bearer-token claim at a concrete input. -/
theorem request_attaches_bearer_token_witness :
    lookupLast (buildRequest "/api" "/auth" "tok1" "/history" "GET" [] none).headers
        "Authorization" = some ("Bearer " ++ "tok1")
    ∧ lookupLast (lwHistoryRequest "/api" "tok1").headers "Authorization"
        = some ("Bearer " ++ "tok1") :=
  ⟨(request_attaches_bearer_token "/api" "/auth" "tok1" "/history" "GET" [] none
      (by decide) rfl).1,
   (request_attaches_bearer_token "/api" "/auth" "tok1" "/history" "GET" [] none
      (by decide) rfl).2.1 "/api" "tok1"⟩

/-- C9: on every 401 response the stored token is cleared before the
error is surfaced. The request function clears the jwt_token entry,
navigates to the root login gate and throws Unauthorized without
returning a body; the legacy widget history fetch and send likewise
remove the stored token and reload the page, so no bearer token remains
in storage after any 401. -/
theorem unauthorized_clears_token :
    (∀ (raw : Bool) (res : ApiRes) (storage : Option String),
        res.status = 401 →
          requestHandle raw res storage
            = (none, some "/", Except.error "Unauthorized"))
    ∧ (∀ (env : LWEnv) (res : LWHistRes) (b : Browser) (s : LWState),
        env.token ≠ "" → res.status = 401 →
          (lwHistoryFetch env res b s).2.jwtToken = none
          ∧ (lwHistoryFetch env res b s).2.reloaded = true)
    ∧ (∀ (env : LWEnv) (res : LWChatRes) (b : Browser) (s : LWState),
        jsTrim s.input ≠ "" → res.status = 401 →
          (lwSend env res b s).2.1.jwtToken = none
          ∧ (lwSend env res b s).2.1.reloaded = true) := by
  refine ⟨?_, ?_, ?_⟩
  · intro raw res storage h401
    unfold requestHandle
    rw [if_pos h401]
  · intro env res b s htok h401
    unfold lwHistoryFetch
    rw [if_neg htok, if_pos h401]
    exact ⟨rfl, rfl⟩
  · intro env res b s hne h401
    simp only [lwSend]
    rw [if_neg hne, if_pos h401]
    exact ⟨rfl, rfl⟩

/-- Witness for the 401 handling at concrete inputs: the request
function clears storage and throws, and a 401 on the legacy history
fetch clears the stored token. -/
theorem unauthorized_clears_token_witness :
    requestHandle false
        { status := 401, contentType := "application/json"
          jsonBody := Json.null, textBody := "" } (some "tok")
      = (none, some "/", Except.error "Unauthorized")
    ∧ (lwHistoryFetch
        { backendUrl := "/api", token := "t", now := 0, replyTime := 0 }
        { status := 401, data := none }
        { jwtToken := some "t", reloaded := false }
        { messages := [], input := "", loading := false, error := none }).2.jwtToken
      = none := by
  constructor
  · exact unauthorized_clears_token.1 false
      { status := 401, contentType := "application/json"
        jsonBody := Json.null, textBody := "" } (some "tok") rfl
  · exact (unauthorized_clears_token.2.1
      { backendUrl := "/api", token := "t", now := 0, replyTime := 0 }
      { status := 401, data := none }
      { jwtToken := some "t", reloaded := false }
      { messages := [], input := "", loading := false, error := none }
      (by decide) rfl).1

/-- C8: serialization of chat turns for the legacy endpoint. In the
dual-API widget in legacy mode and in the legacy widget, a send with
non-empty trimmed input issues exactly one POST to the chat path under
the backend base whose body is the history object wrapping the message
list from before the send followed by the new user message, each entry
mapped to a role and content pair where the role is user exactly for the
user sender and assistant otherwise and the content is the message
text. -/
theorem legacy_chat_body_serialization (env : SendEnv) (s : CWState)
    (lenv : LWEnv) (res : LWChatRes) (b : Browser) (ls : LWState)
    (hU : s.usingLegacy = true) (hne : jsTrim s.input ≠ "")
    (hne2 : jsTrim ls.input ≠ "") :
    ((send env s).2
        = [sendChatRequest env.backendUrl env.authUrl env.storedToken
            (historyPayload s.messages
              { sender := "user", text := jsTrim s.input, time := env.now })]
      ∧ (sendChatRequest env.backendUrl env.authUrl env.storedToken
          (historyPayload s.messages
            { sender := "user", text := jsTrim s.input, time := env.now })).method
          = "POST"
      ∧ (sendChatRequest env.backendUrl env.authUrl env.storedToken
          (historyPayload s.messages
            { sender := "user", text := jsTrim s.input, time := env.now })).url
          = env.backendUrl ++ "/chat"
      ∧ (sendChatRequest env.backendUrl env.authUrl env.storedToken
          (historyPayload s.messages
            { sender := "user", text := jsTrim s.input, time := env.now })).body
          = some (Json.obj [("history", Json.arr
              ((s.messages
                  ++ [({ sender := "user", text := jsTrim s.input, time := env.now } : Msg)]).map
                (fun m => Json.obj
                  [("role", Json.str (if m.sender = "user" then "user" else "assistant")),
                   ("content", Json.str m.text)])))]))
    ∧ ((lwSend lenv res b ls).2.2
        = [lwChatRequest lenv.backendUrl lenv.token
            (historyPayload ls.messages
              { sender := "user", text := jsTrim ls.input, time := lenv.now })]
      ∧ (lwChatRequest lenv.backendUrl lenv.token
          (historyPayload ls.messages
            { sender := "user", text := jsTrim ls.input, time := lenv.now })).body
          = some (Json.obj [("history", Json.arr
              ((ls.messages
                  ++ [({ sender := "user", text := jsTrim ls.input, time := lenv.now } : Msg)]).map
                (fun m => Json.obj
                  [("role", Json.str (if m.sender = "user" then "user" else "assistant")),
                   ("content", Json.str m.text)])))])) := by
  refine ⟨⟨?_, rfl, ?_, rfl⟩, ?_, rfl⟩
  · cases hR : env.sendChatResult with
    | ok r => simp [send, hne, hU, hR]
    | error e => simp [send, hne, hU, hR]
  · show env.backendUrl ++ "/" ++ "chat" = env.backendUrl ++ "/chat"
    rw [String.append_assoc]
    rfl
  · simp only [lwSend]
    rw [if_neg hne2]
    split
    · rfl
    · split
      · split <;> rfl
      · rfl

/-- Witness for the chat body serialization at a concrete input: one
bot message in the list and a fresh user message serialize to the
expected role and content pairs. -/
theorem legacy_chat_body_serialization_witness :
    (send
        { backendUrl := "/api", authUrl := "/auth", storedToken := "t"
          now := 1, replyTime := 2
          sendChatResult := Except.ok "sure"
          sendMessageResult := Except.ok "sure" }
        { messages := [{ sender := "bot", text := "hello", time := 0 }]
          input := "hi!", loading := false, error := none
          chatId := none, usingLegacy := true }).2
      = [sendChatRequest "/api" "/auth" "t"
          (historyPayload [{ sender := "bot", text := "hello", time := 0 }]
            { sender := "user", text := "hi!", time := 1 })]
    ∧ (sendChatRequest "/api" "/auth" "t"
        (historyPayload [{ sender := "bot", text := "hello", time := 0 }]
          { sender := "user", text := "hi!", time := 1 })).body
      = some (Json.obj [("history", Json.arr
          [Json.obj [("role", Json.str "assistant"), ("content", Json.str "hello")],
           Json.obj [("role", Json.str "user"), ("content", Json.str "hi!")]])]) := by
  have h := legacy_chat_body_serialization
    { backendUrl := "/api", authUrl := "/auth", storedToken := "t"
      now := 1, replyTime := 2
      sendChatResult := Except.ok "sure"
      sendMessageResult := Except.ok "sure" }
    { messages := [{ sender := "bot", text := "hello", time := 0 }]
      input := "hi!", loading := false, error := none
      chatId := none, usingLegacy := true }
    { backendUrl := "/api", token := "t", now := 1, replyTime := 2 }
    { status := 200, reply := some "sure" }
    { jwtToken := some "t", reloaded := false }
    { messages := [], input := "x", loading := false, error := none }
    rfl (by decide) (by decide)
  exact ⟨h.1.1, rfl⟩

/-- C10 counterexample: a payload whose sub field is present but empty
is decoded, yet the displayed user id falls back to unknown instead of
the sub value, because the default applies to every falsy sub. -/
theorem falsy_sub_displays_unknown :
    parseJwt (some "h.eyJzdWIiOiIifQ.s")
      = some (Json.obj [("sub", Json.str "")])
    ∧ userId (some "h.eyJzdWIiOiIifQ.s") ≠ Json.str "" := by
  refine ⟨rfl, ?_⟩
  intro h
  have h' : Json.str "unknown" = Json.str "" := h
  injection h' with h''
  exact absurd h'' (by decide)

/-- C10 amended: parseJwt is total over the embedding and yields the
JSON payload of the second base64url segment exactly when decoding and
parsing succeed, and null for null, empty or malformed input; the
displayed user id equals the payload sub field when it is present and
truthy, and the unknown placeholder otherwise, including for a present
but falsy sub. -/
theorem parseJwt_total_userId_defaulted :
    parseJwt none = none
    ∧ parseJwt (some "") = none
    ∧ parseJwt (some "no-dot-token") = none
    ∧ parseJwt (some "h.!!!.s") = none
    ∧ parseJwt (some "h.eyJzdWIiOiJhbGljZSJ9.s")
        = some (Json.obj [("sub", Json.str "alice")])
    ∧ (∀ tok, parseJwt tok = none → userId tok = Json.str "unknown")
    ∧ (∀ tok p, parseJwt tok = some p → jsField p "sub" = none →
        userId tok = Json.str "unknown")
    ∧ (∀ tok p v, parseJwt tok = some p → jsField p "sub" = some v →
        jsTruthy v = false → userId tok = Json.str "unknown")
    ∧ (∀ tok p v, parseJwt tok = some p → jsField p "sub" = some v →
        jsTruthy v = true → userId tok = v) := by
  refine ⟨rfl, rfl, rfl, rfl, rfl, ?_, ?_, ?_, ?_⟩
  · intro tok h
    simp [userId, h]
  · intro tok p h1 h2
    simp [userId, h1, h2]
  · intro tok p v h1 h2 h3
    simp [userId, h1, h2, h3]
  · intro tok p v h1 h2 h3
    simp [userId, h1, h2, h3]

/-- Witness for the amended parseJwt claim at concrete inputs: a valid
token displays its sub, a token without a dot displays unknown. -/
theorem parseJwt_total_userId_defaulted_witness :
    userId (some "h.eyJzdWIiOiJhbGljZSJ9.s") = Json.str "alice"
    ∧ userId (some "no-dot-token") = Json.str "unknown" :=
  ⟨parseJwt_total_userId_defaulted.2.2.2.2.2.2.2.2
      (some "h.eyJzdWIiOiJhbGljZSJ9.s")
      (Json.obj [("sub", Json.str "alice")]) (Json.str "alice")
      rfl rfl rfl,
   parseJwt_total_userId_defaulted.2.2.2.2.2.1 (some "no-dot-token") rfl⟩
